import Mathlib

/-!
Shallow embedding of the router-bridge planner core:
the module with `plan`, `create` and `plan2` (src/unnamed/part_000) and the
two invocation scripts `planner_create.ts` and `planner_plan.ts`.

The GraphQL / federation library (`buildSchema`, `toAPISchema`,
`toGraphQLJSSchema`, `parse`, `validate`, `operationFromDocument`,
`new QueryPlanner`, `buildQueryPlan`) is an external black box for this
component, so it is embedded as a structure of functions `Lib`.  Since any
JavaScript call can throw, every library call is `Except`-valued; a thrown
value is `Except.error e`.

The three module-level globals `SCHEMA`, `COMPOSED_SCHEMA` and `PLANNER`
are declared with `let` and start out undefined, so they are embedded as
`Option`-valued fields of a `SessionState` record that is threaded
explicitly through every operation.  Reading an unset global and handing it
to a library function makes that library function throw; `Lib.undefErr` is
the error value thrown in that situation.

`plan` and `plan2` additionally record the list of library steps they
invoke, in invocation order, so that claims about step ordering and about
steps never being reached can be stated as facts about the trace.
-/

set_option autoImplicit false

namespace RouterBridge

/-- One library call site inside `plan` / `plan2`, used for the invocation
trace. -/
inductive Step where
  | buildSchema
  | toAPISchema
  | parseDoc
  | toGraphQLJSSchema
  | validateDoc
  | operationFromDocument
  | plannerNew
  | buildQueryPlan
  deriving DecidableEq, Repr

/-- The `ExecutionResult<QueryPlan>` value returned by `plan` / `plan2`:
either `{ data: plan }` or `{ errors: [...] }`. -/
inductive ExecutionResult (QP E : Type) where
  | data : QP → ExecutionResult QP E
  | errors : List E → ExecutionResult QP E
  deriving DecidableEq, Repr

/-- Modelled from the spec: the Result Envelope type `OperationResult` from
`js-src/types.ts` (the file itself is not under src/); the spec describes it
as a tagged union with exactly one of `Ok(payload)` or `Err(list of errors)`
populated. -/
inductive OperationResult (A E : Type) where
  | Ok : A → OperationResult A E
  | Err : List E → OperationResult A E
  deriving DecidableEq, Repr

/-- The external GraphQL / federation library, abstracted as a record of
functions over opaque carrier types: `Sch` for federation `Schema`, `GSch`
for `GraphQLSchema`, `Doc` for parsed documents, `Op` for resolved
operations, `Pl` for `QueryPlanner` instances, `QP` for query plans and `E`
for thrown / reported error values. -/
structure Lib (Sch GSch Doc Op Pl QP E : Type) where
  buildSchema : String → Except E Sch
  toAPISchema : Sch → Except E Sch
  toGraphQLJSSchema : Sch → Except E GSch
  parseDoc : String → Except E Doc
  validateDoc : GSch → Doc → Except E (List E)
  operationFromDocument : Sch → Doc → Option String → Except E Op
  plannerNew : Sch → Except E Pl
  buildQueryPlan : Pl → Op → Except E QP
  undefErr : E

/-- The three module-level globals of the bridge module.  Each starts out
undefined (`none`) and is only ever written by `create`. -/
structure SessionState (Sch GSch Pl : Type) where
  SCHEMA : Option GSch
  COMPOSED_SCHEMA : Option Sch
  PLANNER : Option Pl
  deriving DecidableEq, Repr

variable {Sch GSch Doc Op Pl QP E : Type}

/-- The fully uninitialized session: no successful `create` has run yet. -/
def initialState : SessionState Sch GSch Pl :=
  { SCHEMA := none, COMPOSED_SCHEMA := none, PLANNER := none }

/-- Embedding of the one-shot `plan(schemaString, operationString,
operationName?)`.  The whole body sits in a `try`, so the first library
throw becomes `{ errors: [e] }`; a non-empty validation result is returned
as `{ errors: validationErrors }` before operation resolution.  The function
only uses locals, so the session state is threaded through unchanged.  The
second component is the trace of library calls in source order. -/
def plan (L : Lib Sch GSch Doc Op Pl QP E) (s : SessionState Sch GSch Pl)
    (schemaString operationString : String) (operationName : Option String) :
    ExecutionResult QP E × List Step × SessionState Sch GSch Pl :=
  match L.buildSchema schemaString with
  | .error e => (.errors [e], [.buildSchema], s)
  | .ok composedSchema =>
    match L.toAPISchema composedSchema with
    | .error e => (.errors [e], [.buildSchema, .toAPISchema], s)
    | .ok apiSchema =>
      match L.parseDoc operationString with
      | .error e => (.errors [e], [.buildSchema, .toAPISchema, .parseDoc], s)
      | .ok operationDocument =>
        match L.toGraphQLJSSchema apiSchema with
        | .error e =>
          (.errors [e], [.buildSchema, .toAPISchema, .parseDoc, .toGraphQLJSSchema], s)
        | .ok graphqlJsSchema =>
          match L.validateDoc graphqlJsSchema operationDocument with
          | .error e =>
            (.errors [e],
             [.buildSchema, .toAPISchema, .parseDoc, .toGraphQLJSSchema, .validateDoc], s)
          | .ok validationErrors =>
            if validationErrors.length > 0 then
              (.errors validationErrors,
               [.buildSchema, .toAPISchema, .parseDoc, .toGraphQLJSSchema, .validateDoc], s)
            else
              match L.operationFromDocument composedSchema operationDocument operationName with
              | .error e =>
                (.errors [e],
                 [.buildSchema, .toAPISchema, .parseDoc, .toGraphQLJSSchema, .validateDoc,
                  .operationFromDocument], s)
              | .ok operation =>
                match L.plannerNew composedSchema with
                | .error e =>
                  (.errors [e],
                   [.buildSchema, .toAPISchema, .parseDoc, .toGraphQLJSSchema, .validateDoc,
                    .operationFromDocument, .plannerNew], s)
                | .ok planner =>
                  match L.buildQueryPlan planner operation with
                  | .error e =>
                    (.errors [e],
                     [.buildSchema, .toAPISchema, .parseDoc, .toGraphQLJSSchema, .validateDoc,
                      .operationFromDocument, .plannerNew, .buildQueryPlan], s)
                  | .ok p =>
                    (.data p,
                     [.buildSchema, .toAPISchema, .parseDoc, .toGraphQLJSSchema, .validateDoc,
                      .operationFromDocument, .plannerNew, .buildQueryPlan], s)

/-- Embedding of `create(schemaString)`.  The body has no `try`, so a
library throw escapes to the caller (`Except.error`), and the global
assignments made before the throw persist: `COMPOSED_SCHEMA` is assigned
right after `buildSchema` succeeds, `SCHEMA` after `toGraphQLJSSchema`
succeeds, and `PLANNER` after the planner construction succeeds. -/
def create (L : Lib Sch GSch Doc Op Pl QP E) (s : SessionState Sch GSch Pl)
    (schemaString : String) :
    Except E Unit × SessionState Sch GSch Pl :=
  match L.buildSchema schemaString with
  | .error e => (.error e, s)
  | .ok cs =>
    let s1 := { s with COMPOSED_SCHEMA := some cs }
    match L.toAPISchema cs with
    | .error e => (.error e, s1)
    | .ok apiSchema =>
      match L.toGraphQLJSSchema apiSchema with
      | .error e => (.error e, s1)
      | .ok g =>
        let s2 := { s1 with SCHEMA := some g }
        match L.plannerNew cs with
        | .error e => (.error e, s2)
        | .ok p => (.ok (), { s2 with PLANNER := some p })

/-- Embedding of the session-form `plan2(operationString, operationName?)`.
It only reads the globals, never writes them, so the state is threaded
through unchanged.  Reading an unset global and passing it to `validate` or
`operationFromDocument` makes that library call throw (`undefErr`), which
the catch-all turns into `{ errors: [e] }`; an unset `PLANNER` makes the
method access `PLANNER.buildQueryPlan` throw before the planner is ever
invoked, so no `buildQueryPlan` step is recorded in that case. -/
def plan2 (L : Lib Sch GSch Doc Op Pl QP E) (s : SessionState Sch GSch Pl)
    (operationString : String) (operationName : Option String) :
    ExecutionResult QP E × List Step × SessionState Sch GSch Pl :=
  match L.parseDoc operationString with
  | .error e => (.errors [e], [.parseDoc], s)
  | .ok operationDocument =>
    match s.SCHEMA with
    | none => (.errors [L.undefErr], [.parseDoc, .validateDoc], s)
    | some sch =>
      match L.validateDoc sch operationDocument with
      | .error e => (.errors [e], [.parseDoc, .validateDoc], s)
      | .ok validationErrors =>
        if validationErrors.length > 0 then
          (.errors validationErrors, [.parseDoc, .validateDoc], s)
        else
          match s.COMPOSED_SCHEMA with
          | none =>
            (.errors [L.undefErr], [.parseDoc, .validateDoc, .operationFromDocument], s)
          | some cs =>
            match L.operationFromDocument cs operationDocument operationName with
            | .error e =>
              (.errors [e], [.parseDoc, .validateDoc, .operationFromDocument], s)
            | .ok operation =>
              match s.PLANNER with
              | none =>
                (.errors [L.undefErr], [.parseDoc, .validateDoc, .operationFromDocument], s)
              | some planner =>
                match L.buildQueryPlan planner operation with
                | .error e =>
                  (.errors [e],
                   [.parseDoc, .validateDoc, .operationFromDocument, .buildQueryPlan], s)
                | .ok p =>
                  (.data p,
                   [.parseDoc, .validateDoc, .operationFromDocument, .buildQueryPlan], s)

/-- Embedding of the `planner_create.ts` invocation script: calls
`bridge.create(schemaString)` inside `try`, delivers `{ Ok: null }` on
success and `{ Err: [e] }` on a throw.  `Ok null` is modelled as
`OperationResult.Ok ()`. -/
def plannerCreateScript (L : Lib Sch GSch Doc Op Pl QP E)
    (s : SessionState Sch GSch Pl) (schemaString : String) :
    OperationResult Unit E × SessionState Sch GSch Pl :=
  match create L s schemaString with
  | (.ok _, s2) => (.Ok (), s2)
  | (.error e, s2) => (.Err [e], s2)

/-- Embedding of the `planner_plan.ts` invocation script: calls
`bridge.plan2(queryString, operationName)` inside `try`; if the result has
a non-empty `errors` list it delivers `{ Err: errors }`, otherwise
`{ Ok: planResult.data }` (which is `Ok undefined`, here `Ok none`, in the
unreachable case of an empty `errors` list). -/
def plannerPlanScript (L : Lib Sch GSch Doc Op Pl QP E)
    (s : SessionState Sch GSch Pl) (queryString : String)
    (operationName : Option String) :
    OperationResult (Option QP) E × SessionState Sch GSch Pl :=
  let r := plan2 L s queryString operationName
  match r.1 with
  | .errors es => if es.length > 0 then (.Err es, r.2.2) else (.Ok none, r.2.2)
  | .data p => (.Ok (some p), r.2.2)

/-! ### Concrete instantiations used by witnesses and counterexamples.
All carrier types are `Nat`. -/

/-- A library instance on `Nat` carriers where every call succeeds and
validation reports no errors. -/
def libOk : Lib Nat Nat Nat Nat Nat Nat Nat where
  buildSchema := fun _ => .ok 1
  toAPISchema := fun _ => .ok 2
  toGraphQLJSSchema := fun _ => .ok 3
  parseDoc := fun _ => .ok 4
  validateDoc := fun _ _ => .ok []
  operationFromDocument := fun _ _ _ => .ok 5
  plannerNew := fun _ => .ok 6
  buildQueryPlan := fun _ _ => .ok 7
  undefErr := 99

/-- Like `libOk` but validation reports the two errors `41` and `42`. -/
def libVal : Lib Nat Nat Nat Nat Nat Nat Nat :=
  { libOk with validateDoc := fun _ _ => .ok [41, 42] }

/-- Like `libOk` but the API-schema derivation throws the value `8`. -/
def libApiFail : Lib Nat Nat Nat Nat Nat Nat Nat :=
  { libOk with toAPISchema := fun _ => .error 8 }

/-- Like `libOk` but schema compilation throws the value `7`. -/
def libBuildFail : Lib Nat Nat Nat Nat Nat Nat Nat :=
  { libOk with buildSchema := fun _ => .error 7 }

/-- A session state left behind by an earlier successful `create` against
`libOk`: derived schema `3`, composed schema `1`, planner `6`. -/
def stOk : SessionState Nat Nat Nat :=
  { SCHEMA := some 3, COMPOSED_SCHEMA := some 1, PLANNER := some 6 }

/-- A stale session with values distinct from anything `libOk` produces. -/
def stStale : SessionState Nat Nat Nat :=
  { SCHEMA := some 30, COMPOSED_SCHEMA := some 10, PLANNER := some 60 }

/-! ### Helper lemmas -/

/-- `plan2` threads the session state through unchanged on every path. -/
theorem plan2_state_eq (L : Lib Sch GSch Doc Op Pl QP E)
    (s : SessionState Sch GSch Pl) (q : String) (n : Option String) :
    (plan2 L s q n).2.2 = s := by
  unfold plan2
  repeat' split
  all_goals rfl

/-- `plan` threads the session state through unchanged on every path. -/
theorem plan_state_eq (L : Lib Sch GSch Doc Op Pl QP E)
    (s : SessionState Sch GSch Pl) (S q : String) (n : Option String) :
    (plan L s S q n).2.2 = s := by
  unfold plan
  repeat' split
  all_goals rfl

/-! ### Claim theorems -/

/-- Claim C7: for every query string and optional operation name, the
session-form Plan operation `plan2` leaves the Schema Session state
(`SCHEMA`, `COMPOSED_SCHEMA`, `PLANNER`) unchanged, on both its success and
its error paths. -/
theorem claim7_plan2_preserves_session (L : Lib Sch GSch Doc Op Pl QP E)
    (s : SessionState Sch GSch Pl) (q : String) (n : Option String) :
    (plan2 L s q n).2.2 = s :=
  plan2_state_eq L s q n

/-- Claim C8: given an unchanged Schema Session, two calls to the
session-form Plan operation with the identical query string and identical
optional operation name return structurally identical results: a second
`plan2` call, run on the session state left behind by the first, returns
exactly the same result as the first. -/
theorem claim8_plan2_idempotent (L : Lib Sch GSch Doc Op Pl QP E)
    (s : SessionState Sch GSch Pl) (q : String) (n : Option String) :
    plan2 L ((plan2 L s q n).2.2) q n = plan2 L s q n := by
  rw [plan2_state_eq]

/-- Claim C9: for every schema string, query string, and optional operation
name, the one-shot Plan operation `plan` leaves the module-level session
globals `SCHEMA`, `COMPOSED_SCHEMA` and `PLANNER` unchanged — it works only
with locals and establishes no persisting session. -/
theorem claim9_plan_preserves_session (L : Lib Sch GSch Doc Op Pl QP E)
    (s : SessionState Sch GSch Pl) (S q : String) (n : Option String) :
    (plan L s S q n).2.2 = s :=
  plan_state_eq L s S q n

/-- Claim C10: if the session-form Plan operation `plan2` is invoked before
any successful Create (all session globals unset), the invocation still
delivers a well-formed `Err` envelope holding a single error to the host —
never an uncaught failure and never a success. -/
theorem claim10_plan2_uninitialized_err (L : Lib Sch GSch Doc Op Pl QP E)
    (q : String) (n : Option String) :
    ∃ e, (plannerPlanScript L initialState q n).1 = .Err [e] := by
  rcases h : L.parseDoc q with e | doc
  · exact ⟨e, by simp [plannerPlanScript, plan2, h]⟩
  · exact ⟨L.undefErr, by simp [plannerPlanScript, plan2, h, initialState]⟩

/-- Claim C1: whenever validation finds one or more standard GraphQL
validation errors on the parsed document, both `plan2` and `plan` return
exactly that non-empty list as `{ errors }`, with a trace showing that
operation resolution and the planner were never invoked (validation came
right after parsing); and on the success path the steps run in the strict
order parse, validate, resolve, build plan. -/
theorem claim1_validation_short_circuit (L : Lib Sch GSch Doc Op Pl QP E)
    (s : SessionState Sch GSch Pl) (S q : String) (n : Option String) :
    (∀ doc sch ves, L.parseDoc q = .ok doc → s.SCHEMA = some sch →
      L.validateDoc sch doc = .ok ves → ves ≠ [] →
      plan2 L s q n = (.errors ves, [.parseDoc, .validateDoc], s)) ∧
    (∀ cs api doc g ves, L.buildSchema S = .ok cs → L.toAPISchema cs = .ok api →
      L.parseDoc q = .ok doc → L.toGraphQLJSSchema api = .ok g →
      L.validateDoc g doc = .ok ves → ves ≠ [] →
      plan L s S q n = (.errors ves,
        [.buildSchema, .toAPISchema, .parseDoc, .toGraphQLJSSchema, .validateDoc], s)) ∧
    (∀ doc sch cs op pl p, L.parseDoc q = .ok doc → s.SCHEMA = some sch →
      L.validateDoc sch doc = .ok [] → s.COMPOSED_SCHEMA = some cs →
      L.operationFromDocument cs doc n = .ok op → s.PLANNER = some pl →
      L.buildQueryPlan pl op = .ok p →
      plan2 L s q n = (.data p,
        [.parseDoc, .validateDoc, .operationFromDocument, .buildQueryPlan], s)) := by
  refine ⟨?_, ?_, ?_⟩
  · intro doc sch ves h1 h2 h3 h4
    simp [plan2, h1, h2, h3, List.length_pos.mpr h4]
  · intro cs api doc g ves h1 h2 h3 h4 h5 h6
    simp [plan, h1, h2, h3, h4, h5, List.length_pos.mpr h6]
  · intro doc sch cs op pl p h1 h2 h3 h4 h5 h6 h7
    simp [plan2, h1, h2, h3, h4, h5, h6, h7]

/-- Witness for C1 at concrete inputs: `libVal` reports the validation
errors `[41, 42]`, which both forms return verbatim without reaching the
resolution or planning steps, and `libOk` drives the full success path in
order. -/
theorem claim1_witness :
    plan2 libVal stOk "q" none =
      (.errors [41, 42], [.parseDoc, .validateDoc], stOk) ∧
    plan libVal stOk "S" "q" none = (.errors [41, 42],
      [.buildSchema, .toAPISchema, .parseDoc, .toGraphQLJSSchema, .validateDoc], stOk) ∧
    plan2 libOk stOk "q" none = (.data 7,
      [.parseDoc, .validateDoc, .operationFromDocument, .buildQueryPlan], stOk) :=
  ⟨(claim1_validation_short_circuit libVal stOk "S" "q" none).1
      4 3 [41, 42] rfl rfl rfl (by decide),
   (claim1_validation_short_circuit libVal stOk "S" "q" none).2.1
      1 2 4 3 [41, 42] rfl rfl rfl rfl rfl (by decide),
   (claim1_validation_short_circuit libOk stOk "S" "q" none).2.2
      4 3 1 5 6 7 rfl rfl rfl rfl rfl rfl rfl⟩

/-- Claim C5: the Create invocation script delivers `Ok(null)` when schema
compilation, API-schema derivation (including the GraphQL-JS conversion)
and planner construction all succeed, and delivers `Err([e])` holding
exactly the one thrown value `e`, unmodified, when any of those steps
throws. -/
theorem claim5_create_script_result (L : Lib Sch GSch Doc Op Pl QP E)
    (s : SessionState Sch GSch Pl) (S : String) :
    (∀ cs api g pl, L.buildSchema S = .ok cs → L.toAPISchema cs = .ok api →
      L.toGraphQLJSSchema api = .ok g → L.plannerNew cs = .ok pl →
      (plannerCreateScript L s S).1 = .Ok ()) ∧
    (∀ e, L.buildSchema S = .error e → (plannerCreateScript L s S).1 = .Err [e]) ∧
    (∀ cs e, L.buildSchema S = .ok cs → L.toAPISchema cs = .error e →
      (plannerCreateScript L s S).1 = .Err [e]) ∧
    (∀ cs api e, L.buildSchema S = .ok cs → L.toAPISchema cs = .ok api →
      L.toGraphQLJSSchema api = .error e → (plannerCreateScript L s S).1 = .Err [e]) ∧
    (∀ cs api g e, L.buildSchema S = .ok cs → L.toAPISchema cs = .ok api →
      L.toGraphQLJSSchema api = .ok g → L.plannerNew cs = .error e →
      (plannerCreateScript L s S).1 = .Err [e]) := by
  refine ⟨?_, ?_, ?_, ?_, ?_⟩
  · intro cs api g pl h1 h2 h3 h4
    simp [plannerCreateScript, create, h1, h2, h3, h4]
  · intro e h1
    simp [plannerCreateScript, create, h1]
  · intro cs e h1 h2
    simp [plannerCreateScript, create, h1, h2]
  · intro cs api e h1 h2 h3
    simp [plannerCreateScript, create, h1, h2, h3]
  · intro cs api g e h1 h2 h3 h4
    simp [plannerCreateScript, create, h1, h2, h3, h4]

/-- Witness for C5: against `libOk` the Create script delivers `Ok(null)`;
against `libApiFail`, whose API-schema derivation throws `8`, it delivers
`Err([8])`. -/
theorem claim5_witness :
    (plannerCreateScript libOk stStale "S").1 = .Ok () ∧
    (plannerCreateScript libApiFail stStale "S").1 = .Err [8] :=
  ⟨(claim5_create_script_result libOk stStale "S").1 1 2 3 6 rfl rfl rfl rfl,
   (claim5_create_script_result libApiFail stStale "S").2.2.1 1 8 rfl rfl⟩

/-- Claim C2: for every input, each invocation script delivers exactly one
Result Envelope.  In the embedding a synchronous failure of the operation
is an `Except.error` value; both script embeddings are total functions into
`OperationResult`, every failure of `create` is converted to `Err [e]`, and
every result of `plan2` is converted to an `Ok` or `Err` envelope, so no
failure escapes the scripts. -/
theorem claim2_scripts_always_deliver_envelope (L : Lib Sch GSch Doc Op Pl QP E)
    (s : SessionState Sch GSch Pl) (S q : String) (n : Option String) :
    ((plannerCreateScript L s S).1 = .Ok () ∨
      ∃ e, (plannerCreateScript L s S).1 = .Err [e]) ∧
    ((∃ p, (plannerPlanScript L s q n).1 = .Ok p) ∨
      ∃ es, (plannerPlanScript L s q n).1 = .Err es) ∧
    (∀ e, (create L s S).1 = .error e → (plannerCreateScript L s S).1 = .Err [e]) := by
  refine ⟨?_, ?_, ?_⟩
  · rcases h : create L s S with ⟨r, s2⟩
    rcases r with e | u
    · exact Or.inr ⟨e, by simp [plannerCreateScript, h]⟩
    · exact Or.inl (by simp [plannerCreateScript, h])
  · unfold plannerPlanScript
    rcases h : (plan2 L s q n).1 with p | es
    · exact Or.inl ⟨some p, by simp [h]⟩
    · by_cases hl : es.length > 0
      · exact Or.inr ⟨es, by simp [h, hl]⟩
      · exact Or.inl ⟨none, by simp [h, hl]⟩
  · intro e h
    rcases h2 : create L s S with ⟨r, s2⟩
    rw [h2] at h
    simp at h
    simp [plannerCreateScript, h2, h]

/-- Witness for C2: the failing-create conjunct at a concrete input — the
value `8` thrown by `libApiFail` is delivered as the envelope `Err [8]`. -/
theorem claim2_witness :
    (plannerCreateScript libApiFail stStale "S").1 = .Err [8] :=
  (claim2_scripts_always_deliver_envelope libApiFail stStale "S" "q" none).2.2
    8 rfl

/-- Claim C6: every Result Envelope delivered by the Create or Plan script
has exactly one of its `Ok`/`Err` arms populated (they are distinct
constructors of a tagged union), and whenever the `Err` arm is populated
its error list is non-empty. -/
theorem claim6_envelope_invariant (L : Lib Sch GSch Doc Op Pl QP E)
    (s : SessionState Sch GSch Pl) (S q : String) (n : Option String) :
    (∀ es, (plannerCreateScript L s S).1 = .Err es → es ≠ []) ∧
    (∀ es, (plannerPlanScript L s q n).1 = .Err es → es ≠ []) ∧
    (∀ u es, (plannerCreateScript L s S).1 = .Ok u →
      (plannerCreateScript L s S).1 ≠ .Err es) ∧
    (∀ p es, (plannerPlanScript L s q n).1 = .Ok p →
      (plannerPlanScript L s q n).1 ≠ .Err es) := by
  refine ⟨?_, ?_, ?_, ?_⟩
  · intro es h
    rcases h2 : create L s S with ⟨r, s2⟩
    rcases r with e | u
    · simp [plannerCreateScript, h2] at h
      subst h
      simp
    · simp [plannerCreateScript, h2] at h
  · intro es h
    rcases h2 : (plan2 L s q n).1 with p | es2
    · simp [plannerPlanScript, h2] at h
    · by_cases hl : es2.length > 0
      · simp [plannerPlanScript, h2, hl] at h
        subst h
        exact List.length_pos.mp hl
      · simp [plannerPlanScript, h2, hl] at h
  · intro u es hOk
    rw [hOk]
    exact fun hcontra => OperationResult.noConfusion hcontra
  · intro p es hOk
    rw [hOk]
    exact fun hcontra => OperationResult.noConfusion hcontra

/-- Witness for C6 at concrete inputs: the `Err` lists delivered for a
failing create (`[8]`) and for a validation failure (`[41, 42]`) are
non-empty. -/
theorem claim6_witness :
    ([8] : List Nat) ≠ [] ∧ ([41, 42] : List Nat) ≠ [] :=
  ⟨(claim6_envelope_invariant libApiFail stStale "S" "q" none).1 [8] (by decide),
   (claim6_envelope_invariant libVal stOk "S" "q" none).2.1 [41, 42] (by decide)⟩

/-- Counterexample to Claim C3 as stated: with `libBuildFail` (schema
compilation throws `7`) and a stale session `stOk` left by an earlier
create, the sequence `create "S"; plan2 "q"` succeeds with the stale plan
`7` while the one-shot `plan "S" "q"` fails with `[7]` — the two forms do
not agree in Ok/Err outcome for every schema string. -/
theorem claim3_counterexample :
    (plan2 libBuildFail ((create libBuildFail stOk "S").2) "q" none).1 =
      .data 7 ∧
    (plan libBuildFail stOk "S" "q" none).1 = .errors [7] := by
  decide

/-- Claim C3 amended: provided `create(S)` succeeds, `plan2(q, name)` on
the session it establishes yields the same Ok/Err outcome and the same
payload (plan or error list) as the one-shot `plan(S, q, name)`. -/
theorem claim3_amended_oneshot_session_agree (L : Lib Sch GSch Doc Op Pl QP E)
    (s : SessionState Sch GSch Pl) (S q : String) (n : Option String)
    (h : (create L s S).1 = .ok ()) :
    (plan2 L (create L s S).2 q n).1 = (plan L s S q n).1 := by
  rcases h1 : L.buildSchema S with e | cs
  · simp [create, h1] at h
  · rcases h2 : L.toAPISchema cs with e | api
    · simp [create, h1, h2] at h
    · rcases h3 : L.toGraphQLJSSchema api with e | g
      · simp [create, h1, h2, h3] at h
      · rcases h4 : L.plannerNew cs with e | pl
        · simp [create, h1, h2, h3, h4] at h
        · have hs : (create L s S).2 =
              { SCHEMA := some g, COMPOSED_SCHEMA := some cs, PLANNER := some pl } := by
            simp [create, h1, h2, h3, h4]
          rw [hs]
          rcases h5 : L.parseDoc q with e | doc
          · simp [plan, plan2, h1, h2, h3, h5]
          · rcases h6 : L.validateDoc g doc with e | ves
            · simp [plan, plan2, h1, h2, h3, h5, h6]
            · by_cases h7 : ves.length > 0
              · simp [plan, plan2, h1, h2, h3, h5, h6, h7]
              · rcases h8 : L.operationFromDocument cs doc n with e | op
                · simp [plan, plan2, h1, h2, h3, h5, h6, h7, h8]
                · rcases h9 : L.buildQueryPlan pl op with e | p
                  · simp [plan, plan2, h1, h2, h3, h4, h5, h6, h7, h8, h9]
                  · simp [plan, plan2, h1, h2, h3, h4, h5, h6, h7, h8, h9]

/-- Witness for amended C3: against `libOk`, starting from the
uninitialized session, create-then-plan2 and the one-shot plan agree. -/
theorem claim3_witness :
    (plan2 libOk ((create libOk (@initialState Nat Nat Nat) "S").2) "q" none).1 =
      (plan libOk (@initialState Nat Nat Nat) "S" "q" none).1 :=
  claim3_amended_oneshot_session_agree libOk (@initialState Nat Nat Nat)
    "S" "q" none rfl

/-- Counterexample to Claim C4 as stated: with `libApiFail` (API-schema
derivation throws `8`) and the previously established session `stStale`,
`create` fails, yet the session is neither left as it was (it changed) nor
fully replaced (`SCHEMA` still holds its prior value): `COMPOSED_SCHEMA`
alone was overwritten. -/
theorem claim4_counterexample :
    (create libApiFail stStale "S").1 = Except.error 8 ∧
    (create libApiFail stStale "S").2 ≠ stStale ∧
    (create libApiFail stStale "S").2.SCHEMA = stStale.SCHEMA ∧
    (create libApiFail stStale "S").2.COMPOSED_SCHEMA ≠ stStale.COMPOSED_SCHEMA :=
  ⟨rfl, by decide, rfl, by decide⟩

/-- Claim C4 amended: a Create call replaces all three session fields on
success, but on failure it keeps exactly the assignments made before the
failing step: a schema-compilation failure leaves all three fields
unchanged; a failure in API-schema derivation or its GraphQL-JS conversion
replaces only `COMPOSED_SCHEMA`; a planner-construction failure replaces
`COMPOSED_SCHEMA` and `SCHEMA` but leaves `PLANNER` unchanged — so the
session can be left partially mutated. -/
theorem claim4_amended_create_state (L : Lib Sch GSch Doc Op Pl QP E)
    (s : SessionState Sch GSch Pl) (S : String) :
    (∀ e, L.buildSchema S = .error e → create L s S = (.error e, s)) ∧
    (∀ cs e, L.buildSchema S = .ok cs → L.toAPISchema cs = .error e →
      create L s S = (.error e, { s with COMPOSED_SCHEMA := some cs })) ∧
    (∀ cs api e, L.buildSchema S = .ok cs → L.toAPISchema cs = .ok api →
      L.toGraphQLJSSchema api = .error e →
      create L s S = (.error e, { s with COMPOSED_SCHEMA := some cs })) ∧
    (∀ cs api g e, L.buildSchema S = .ok cs → L.toAPISchema cs = .ok api →
      L.toGraphQLJSSchema api = .ok g → L.plannerNew cs = .error e →
      create L s S = (.error e,
        { s with COMPOSED_SCHEMA := some cs, SCHEMA := some g })) ∧
    (∀ cs api g pl, L.buildSchema S = .ok cs → L.toAPISchema cs = .ok api →
      L.toGraphQLJSSchema api = .ok g → L.plannerNew cs = .ok pl →
      create L s S = (.ok (),
        { SCHEMA := some g, COMPOSED_SCHEMA := some cs, PLANNER := some pl })) := by
  refine ⟨?_, ?_, ?_, ?_, ?_⟩
  · intro e h1
    simp [create, h1]
  · intro cs e h1 h2
    simp [create, h1, h2]
  · intro cs api e h1 h2 h3
    simp [create, h1, h2, h3]
  · intro cs api g e h1 h2 h3 h4
    simp [create, h1, h2, h3, h4]
  · intro cs api g pl h1 h2 h3 h4
    simp [create, h1, h2, h3, h4]

/-- Witness for amended C4 at concrete inputs: the partial mutation left by
`libApiFail` and the full replacement performed by `libOk`. -/
theorem claim4_witness :
    create libApiFail stStale "S" =
      (.error 8, { stStale with COMPOSED_SCHEMA := some 1 }) ∧
    create libOk stStale "S" =
      (.ok (), { SCHEMA := some 3, COMPOSED_SCHEMA := some 1, PLANNER := some 6 }) :=
  ⟨(claim4_amended_create_state libApiFail stStale "S").2.1 1 8 rfl rfl,
   (claim4_amended_create_state libOk stStale "S").2.2.2.2 1 2 3 6 rfl rfl rfl rfl⟩

end RouterBridge
